import Mathlib

/-!
# Sentinel Tactical API — verification of the core pipeline

A shallow embedding of `src/main.py` (FastAPI service "Sentinel Tactical
API", version 3.0).  Python floats are modelled as rationals (`ℚ`), Python
dicts as association lists or structures, raised exceptions as `Except`,
and the ambient clock (`datetime.now().isoformat()`) as an explicit
`now : String` argument threaded through the functions that read it.
-/

/-- Confidence tier of a signal (`tier` in `generate_signal`). -/
inductive Tier where
  | forte
  | moderado
  | fraco
deriving DecidableEq, Repr

/-- Trade direction (`"CALL"` / `"PUT"` strings in the Python dict). -/
inductive Direction where
  | call
  | put
deriving DecidableEq, Repr

/-- The `signal` sub-dict built by `generate_signal` for FORTE/MODERADO
tiers.  `note` is `some …` exactly when the dict carries a `"note"` key
(the MODERADO branch). -/
structure TradeSignal where
  direction : Direction
  entry : ℚ
  expiration : ℕ
  note : Option String
  reasons : List String
deriving DecidableEq, Repr

/-- The result dict returned by `generate_signal`: `asset`, `price`,
`tier`, the `indicators` sub-dict (`rsi`, `change_24h`, `source`),
`signal` and `timestamp`.  The top-level `note` key is absent (`none`)
as built by `generate_signal`; `generate_mock_data` adds it afterwards. -/
structure SignalResult where
  asset : String
  price : ℚ
  tier : Tier
  rsi : ℚ
  change_24h : ℚ
  source : String
  signal : Option TradeSignal
  timestamp : String
  note : Option String
deriving DecidableEq, Repr

/-- Python's `round(x, d)` on the rationals in play (exact half-way ties
round differently in Python, but no theorem below depends on a tie). -/
def roundTo (q : ℚ) (d : ℕ) : ℚ :=
  ((round (q * 10 ^ d) : ℤ) : ℚ) / 10 ^ d

/-- Stand-in for the Python f-string conversion `f"{change:+.2f}"`:
a sign followed by the value rounded to two decimals.  Only determinism
in the inputs matters to the claims, not the exact byte rendering. -/
def fmtSigned2 (q : ℚ) : String :=
  (if 0 ≤ q then "+" else "") ++ toString (roundTo q 2)

/-- The two-line pseudo-RSI computation repeated at every call site of
`generate_signal` in `main.py`:
`rsi = 50 - (change * 2); rsi = max(0, min(100, rsi))`. -/
def pseudo_rsi (change : ℚ) : ℚ :=
  max 0 (min 100 (50 - change * 2))

/-- The `confluences` total accumulated by `generate_signal` (lines
219–236 of `main.py`): `+= 1` on an extreme RSI (`< 30` / `> 70`
branches), then `+= 1` on `abs(change) > 2` or `+= 0.5` on
`abs(change) > 1`. -/
def confluencesOf (rsi change : ℚ) : ℚ :=
  (if rsi < 30 then 1 else if rsi > 70 then 1 else 0) +
  (if abs change > 2 then 1 else if abs change > 1 then 1/2 else 0)

/-- The `reasons` list accumulated alongside `confluencesOf`. -/
def reasonsOf (rsi change : ℚ) : List String :=
  (if rsi < 30 then ["RSI sobrevendido (<30)"]
   else if rsi > 70 then ["RSI sobrecomprado (>70)"] else []) ++
  (if abs change > 2 then ["Movimento forte 24h (" ++ fmtSigned2 change ++ "%)"]
   else if abs change > 1 then ["Movimento moderado 24h (" ++ fmtSigned2 change ++ "%)"]
   else [])

/-- `generate_signal(asset, price, change, rsi, source)` from `main.py`
(lines 216–272).  `now` models the `datetime.now().isoformat()` read. -/
def generate_signal (asset : String) (price change rsi : ℚ)
    (source now : String) : SignalResult :=
  let confluences : ℚ := confluencesOf rsi change
  let reasons : List String := reasonsOf rsi change
  if confluences ≥ 2 then
    { asset := asset, price := price, tier := Tier.forte
      rsi := roundTo rsi 1, change_24h := roundTo change 2, source := source
      signal := some { direction := if rsi < 50 then Direction.call else Direction.put
                       entry := price, expiration := 5, note := none, reasons := reasons }
      timestamp := now, note := none }
  else if confluences ≥ 1 then
    { asset := asset, price := price, tier := Tier.moderado
      rsi := roundTo rsi 1, change_24h := roundTo change 2, source := source
      signal := some { direction := if rsi < 50 then Direction.call else Direction.put
                       entry := price, expiration := 5
                       note := some "Aguardar confirmação adicional", reasons := reasons }
      timestamp := now, note := none }
  else
    { asset := asset, price := price, tier := Tier.fraco
      rsi := roundTo rsi 1, change_24h := roundTo change 2, source := source
      signal := none, timestamp := now, note := none }

/-! ## Instrument registry (`main.py` lines 37–65) -/

/-- `BYBIT_PAIRS` — crypto pairs served by the ByBit fetcher. -/
def BYBIT_PAIRS : List (String × String) :=
  [("BTCUSDT", "BTCUSDT"), ("ETHUSDT", "ETHUSDT"), ("SOLUSDT", "SOLUSDT"),
   ("XRPUSDT", "XRPUSDT"), ("ADAUSDT", "ADAUSDT"), ("DOGEUSDT", "DOGEUSDT"),
   ("LTCUSDT", "LTCUSDT"), ("LINKUSDT", "LINKUSDT")]

/-- `FOREX_PAIRS`. -/
def FOREX_PAIRS : List (String × String) :=
  [("EURUSD", "EURUSD"), ("GBPUSD", "GBPUSD"), ("USDJPY", "USDJPY"),
   ("AUDUSD", "AUDUSD"), ("USDCAD", "USDCAD"), ("NZDUSD", "NZDUSD"),
   ("USDCHF", "USDCHF"), ("EURGBP", "EURGBP")]

/-- `COMMODITY_PAIRS`. -/
def COMMODITY_PAIRS : List (String × String) :=
  [("XAUUSD", "XAUUSD"), ("XAGUSD", "XAGUSD"), ("USOIL", "USOIL")]

/-- `all_pairs = {**BYBIT_PAIRS, **FOREX_PAIRS, **COMMODITY_PAIRS}`
(`analyze`, line 89); the key sets are disjoint, so the merge is the
ordered concatenation. -/
def all_pairs : List (String × String) :=
  BYBIT_PAIRS ++ FOREX_PAIRS ++ COMMODITY_PAIRS

/-! ## Python string primitives

`String.replace`/`String.toUpper` of Lean's library are defined by
well-founded recursion and do not evaluate inside the kernel, so the
Python primitives are modelled by structurally recursive equivalents
(ASCII inputs only, which is all the registry holds). -/

/-- Python `str.upper` (ASCII). -/
def py_upper (s : String) : String :=
  String.mk (s.data.map Char.toUpper)

/-- One fuel-indexed pass of Python `str.replace`: replace each
non-overlapping occurrence of `pat`, scanning left to right. -/
def replaceAux : ℕ → List Char → List Char → List Char → List Char
  | 0, s, _, _ => s
  | _ + 1, [], _, _ => []
  | fuel + 1, c :: cs, pat, rep =>
    if pat.isPrefixOf (c :: cs) then
      rep ++ replaceAux fuel ((c :: cs).drop pat.length) pat rep
    else
      c :: replaceAux fuel cs pat rep

/-- Python `s.replace(pat, rep)` for a non-empty `pat` (every pattern
`analyze` uses is non-empty; Python's empty-pattern behaviour differs
and is left out). -/
def py_replace (s pat rep : String) : String :=
  if pat.data.isEmpty then s
  else String.mk (replaceAux s.data.length s.data pat.data rep.data)

/-- The symbol normalization of `analyze` (line 86):
`asset.upper().replace("/", "").replace("%2F", "").replace("%2f", "")`.
(The final replace runs after `upper()` and can never fire.) -/
def normalize_asset (asset : String) : String :=
  py_replace (py_replace (py_replace (py_upper asset) "/" "") "%2F" "") "%2f" ""

/-! ## Upstream responses -/

/-- One entry of a ByBit `result.list`: the fields `process_ticker_data`
reads.  `none` models an absent key (Python `.get` default). -/
structure Ticker where
  lastPrice : Option ℚ
  markPrice : Option ℚ
  price24hPcnt : Option ℚ
deriving DecidableEq, Repr

/-- A decoded ByBit v5 tickers payload: `retCode` and the (flattened)
`result.list`. -/
structure BybitResponse where
  retCode : Int
  list : List Ticker
deriving DecidableEq, Repr

/-- The two ByBit market categories `fetch_bybit_data` queries. -/
inductive BybitCategory where
  | spot
  | linear
deriving DecidableEq, Repr

/-- The success test of `fetch_bybit_data` (lines 125 and 132):
`retCode == 0 and result.list` non-empty; its negation is the
"no data, fall through to linear" test. -/
def bybitHasData (r : BybitResponse) : Prop :=
  r.retCode = 0 ∧ r.list ≠ []

instance (r : BybitResponse) : Decidable (bybitHasData r) := by
  unfold bybitHasData; infer_instance

/-- A JSON value appearing in one of the service's error payloads. -/
inductive JVal where
  | str (s : String)
  | strList (l : List String)
  | resp (r : BybitResponse)
  | tick (t : Ticker)
deriving DecidableEq, Repr

/-- What a route handler returns: a signal dict or an error dict
(an association list, so that the presence or absence of a key is a
statement about the payload). -/
inductive AnalyzeResult where
  | ok (s : SignalResult)
  | err (fields : List (String × JVal))
deriving DecidableEq, Repr

/-- `true` on the non-error constructor. -/
def AnalyzeResult.isOkB : AnalyzeResult → Bool
  | .ok _ => true
  | .err _ => false

/-- `process_ticker_data(ticker, asset, source)` (lines 196–206): read
`lastPrice` (falling back to `markPrice`, then `0`), scale
`price24hPcnt` to percent, derive the pseudo-RSI and call
`generate_signal`.  The function's `except` arm only fires when
`float()` rejects a malformed string, which a numeric `Ticker` cannot
represent. -/
def process_ticker_data (ticker : Ticker) (asset source now : String) : SignalResult :=
  let price := ticker.lastPrice.getD (ticker.markPrice.getD 0)
  let change := ticker.price24hPcnt.getD 0 * 100
  let rsi := pseudo_rsi change
  generate_signal asset price change rsi source now

/-- `fetch_bybit_data(symbol, original_asset)` (lines 112–141).  `api`
stands for the ByBit HTTP endpoint: `Except.error` is a raised transport
error (propagated to `analyze`'s `except`), `Except.ok` a decoded JSON
body.  Alongside the Python return value the model returns the list of
categories actually requested, in request order, so that statements
about request ordering can be made. -/
def fetch_bybit_data (api : BybitCategory → String → Except String BybitResponse)
    (symbol original_asset now : String) :
    Except String (AnalyzeResult × List BybitCategory) := do
  let bybit_symbol := (BYBIT_PAIRS.lookup symbol).getD symbol
  let d0 ← api BybitCategory.spot bybit_symbol
  let (data, attempted) ←
    if bybitHasData d0 then
      pure (d0, [BybitCategory.spot])
    else do
      let d1 ← api BybitCategory.linear bybit_symbol
      pure (d1, [BybitCategory.spot, BybitCategory.linear])
  if h : bybitHasData data then
    pure (AnalyzeResult.ok
      (process_ticker_data (data.list.head h.2) original_asset "bybit" now), attempted)
  else
    pure (AnalyzeResult.err
      [("asset", JVal.str original_asset),
       ("status", JVal.str "error"),
       ("message", JVal.str ("Par " ++ bybit_symbol ++ " não encontrado na ByBit")),
       ("api_response", JVal.resp data)], attempted)

/-- The `meta` block of a Yahoo Finance chart response. -/
structure YahooMeta where
  regularMarketPrice : Option ℚ
  previousClose : Option ℚ
deriving DecidableEq, Repr

/-- Outcome of the Yahoo request in `fetch_forex_data`'s `try` block:
`success` a decoded body with a non-empty `chart.result`; `failure`
anything the `except` arm catches (transport error, bad JSON, or the
explicit raise on an empty `chart.result`). -/
inductive YahooOutcome where
  | success (meta : YahooMeta)
  | failure
deriving Repr

/-- `get_yahoo_symbol(symbol)` (lines 180–194). -/
def yahoo_conversions : List (String × String) :=
  [("EURUSD", "EURUSD=X"), ("GBPUSD", "GBPUSD=X"), ("USDJPY", "USDJPY=X"),
   ("AUDUSD", "AUDUSD=X"), ("USDCAD", "USDCAD=X"), ("NZDUSD", "NZDUSD=X"),
   ("USDCHF", "USDCHF=X"), ("XAUUSD", "GC=F"), ("XAGUSD", "SI=F"),
   ("USOIL", "CL=F")]

/-- `get_yahoo_symbol` returns the conversion, defaulting to the input. -/
def get_yahoo_symbol (symbol : String) : String :=
  (yahoo_conversions.lookup symbol).getD symbol

/-- `base_prices` of `generate_mock_data` (lines 279–290). -/
def base_prices : List (String × ℚ) :=
  [("EURUSD", 1.0850), ("GBPUSD", 1.2650), ("USDJPY", 149.50),
   ("AUDUSD", 0.6550), ("USDCAD", 1.3550), ("NZDUSD", 0.6150),
   ("USDCHF", 0.8850), ("XAUUSD", 2030.00), ("XAGUSD", 23.50),
   ("USOIL", 78.50)]

/-- `generate_mock_data(symbol, original_asset)` (lines 274–302).
`variation` stands for the `random.uniform(-0.02, 0.02)` draw. -/
def generate_mock_data (variation : ℚ) (symbol original_asset now : String) :
    AnalyzeResult :=
  let base := (base_prices.lookup symbol).getD 100
  let price := base * (1 + variation)
  let change := variation * 100
  let rsi := pseudo_rsi change
  let r := generate_signal original_asset price change rsi "mock" now
  AnalyzeResult.ok { r with note := some "Dados simulados - API indisponível" }

/-- `fetch_forex_data(symbol, original_asset)` (lines 143–178): try the
Yahoo chart endpoint; on any failure fall back to mock data. -/
def fetch_forex_data (yahoo : String → YahooOutcome) (variation : ℚ)
    (symbol original_asset now : String) : AnalyzeResult :=
  match yahoo (get_yahoo_symbol symbol) with
  | YahooOutcome.success meta =>
    let price := meta.regularMarketPrice.getD 0
    let prev_close := meta.previousClose.getD price
    let change := if prev_close ≠ 0 then (price - prev_close) / prev_close * 100 else 0
    let rsi := pseudo_rsi change
    AnalyzeResult.ok (generate_signal original_asset price change rsi "yahoo" now)
  | YahooOutcome.failure => generate_mock_data variation symbol original_asset now

/-- Python's rendering of `list(all_pairs.keys())` inside an f-string:
`["A", "B", …]` with single-quoted entries (`\x27` is the quote). -/
def pyStrListRepr (l : List String) : String :=
  "[" ++ String.intercalate ", " (l.map (fun s => "\x27" ++ s ++ "\x27")) ++ "]"

/-- The process environment a request runs against: the two upstream
endpoints, the pseudo-random draw the mock generator would consume, and
the wall clock. -/
structure Env where
  bybit : BybitCategory → String → Except String BybitResponse
  yahoo : String → YahooOutcome
  mockVariation : ℚ
  now : String

/-- `GET /analyze/{asset}` (lines 81–110): normalize, reject unknown
pairs with a structured error, route crypto to ByBit and the rest to
the forex fetcher; the surrounding `try` turns a raised exception into
`{asset, status: "error", message: str(e)}`. -/
def analyze (env : Env) (asset : String) : AnalyzeResult :=
  let symbol := normalize_asset asset
  if symbol ∉ all_pairs.map Prod.fst then
    AnalyzeResult.err
      [("asset", JVal.str asset),
       ("status", JVal.str "error"),
       ("message", JVal.str ("Par " ++ asset ++ " não suportado. Use: "
          ++ pyStrListRepr (all_pairs.map Prod.fst)))]
  else if symbol ∈ BYBIT_PAIRS.map Prod.fst then
    match fetch_bybit_data env.bybit symbol asset env.now with
    | Except.ok (r, _) => r
    | Except.error e =>
      AnalyzeResult.err
        [("asset", JVal.str asset),
         ("status", JVal.str "error"),
         ("message", JVal.str e)]
  else
    fetch_forex_data env.yahoo env.mockVariation symbol asset env.now

/-! ## Subscriber set and module state -/

/-- One WebSocket subscriber: an identity plus whether a send to it
succeeds (a send to a dead connection raises). -/
structure WsConn where
  id : ℕ
  sendOk : Bool
deriving DecidableEq, Repr

/-- Modelled from the spec: `src/main.py` only registers and unregisters
subscribers in `ws_clients` (`websocket_endpoint`, lines 304–329) and has
no broadcast routine; §4.7 of the specification defines
`Broadcaster.push(snapshot)`: attempt a best-effort send to every
subscriber, mark each connection whose send fails, and remove every
marked connection once the iteration is over.  The result is the pruned
subscriber list together with the deliveries made, in iteration order. -/
def push (clients : List WsConn) (snapshot : String) :
    List WsConn × List (WsConn × String) :=
  let marked := clients.filter (fun c => !c.sendOk)
  let delivered := (clients.filter (fun c => c.sendOk)).map (fun c => (c, snapshot))
  (clients.filter (fun c => !marked.elem c), delivered)

/-- The module-level mutable state of `main.py`: `price_cache` (line 19,
a symbol-to-dict map) and `ws_clients` (line 20). -/
structure ServerState where
  price_cache : List (String × List (String × JVal))
  ws_clients : List WsConn
deriving DecidableEq, Repr

/-- Both module-level containers start empty (lines 19–20). -/
def initialState : ServerState :=
  { price_cache := [], ws_clients := [] }

/-- An externally triggered handler invocation. -/
inductive ServerEvent where
  | httpRoot
  | httpAnalyze (asset : String)
  | wsConnect (c : WsConn)
  | wsDisconnect (c : WsConn)
  | wsMessage (c : WsConn) (msg : String)
deriving DecidableEq, Repr

/-- The state effect of each handler in `main.py`: `websocket_endpoint`
appends on accept (line 309) and removes on disconnect (line 328);
`root`, `analyze` and the subscribe-message reply read no module state
and write none. -/
def stepState (s : ServerState) (e : ServerEvent) : ServerState :=
  match e with
  | ServerEvent.wsConnect c => { s with ws_clients := s.ws_clients ++ [c] }
  | ServerEvent.wsDisconnect c => { s with ws_clients := s.ws_clients.erase c }
  | _ => s

/-- The response each handler computes; `analyze`'s is a function of the
environment and the path parameter alone. -/
def eventResponse (env : Env) (e : ServerEvent) : Option AnalyzeResult :=
  match e with
  | ServerEvent.httpAnalyze a => some (analyze env a)
  | _ => none

/-- The error branch's fields, `none` on a signal result. -/
def AnalyzeResult.errFields : AnalyzeResult → Option (List (String × JVal))
  | .ok _ => none
  | .err f => some f

/-- The confluence count exactly as the specification words it (claim
C3): `+1` when `rsi < 30` or `rsi > 70`, plus `+1` when
`|change24h| > 2`, else `+0.5` when `|change24h| > 1`.  Stated
separately from `confluencesOf` (the code's accumulation) so the two
can be compared. -/
def confluence_claim (rsi change : ℚ) : ℚ :=
  (if rsi < 30 ∨ rsi > 70 then 1 else 0) +
  (if abs change > 2 then 1 else if abs change > 1 then 1/2 else 0)

/-- An environment in which every upstream request fails: every ByBit
request decodes to `retCode = 1` with an empty list, every Yahoo
request fails, and the pseudo-random draw is `0`. -/
def failEnv : Env :=
  { bybit := fun _ _ => Except.ok { retCode := 1, list := [] }
    yahoo := fun _ => YahooOutcome.failure
    mockVariation := 0
    now := "t0" }

/-! ## Theorems -/

theorem generate_signal_asset (asset : String) (price change rsi : ℚ) (source now : String) :
    (generate_signal asset price change rsi source now).asset = asset := by
  simp only [generate_signal]; split_ifs <;> rfl

theorem generate_signal_price (asset : String) (price change rsi : ℚ) (source now : String) :
    (generate_signal asset price change rsi source now).price = price := by
  simp only [generate_signal]; split_ifs <;> rfl

theorem generate_signal_source (asset : String) (price change rsi : ℚ) (source now : String) :
    (generate_signal asset price change rsi source now).source = source := by
  simp only [generate_signal]; split_ifs <;> rfl

theorem generate_signal_timestamp (asset : String) (price change rsi : ℚ) (source now : String) :
    (generate_signal asset price change rsi source now).timestamp = now := by
  simp only [generate_signal]; split_ifs <;> rfl

theorem generate_signal_rsi (asset : String) (price change rsi : ℚ) (source now : String) :
    (generate_signal asset price change rsi source now).rsi = roundTo rsi 1 := by
  simp only [generate_signal]; split_ifs <;> rfl

theorem generate_signal_change (asset : String) (price change rsi : ℚ) (source now : String) :
    (generate_signal asset price change rsi source now).change_24h = roundTo change 2 := by
  simp only [generate_signal]; split_ifs <;> rfl

theorem generate_signal_tier (asset : String) (price change rsi : ℚ) (source now : String) :
    (generate_signal asset price change rsi source now).tier =
      (if confluencesOf rsi change ≥ 2 then Tier.forte
       else if confluencesOf rsi change ≥ 1 then Tier.moderado
       else Tier.fraco) := by
  simp only [generate_signal]; split_ifs <;> rfl

theorem generate_signal_signal (asset : String) (price change rsi : ℚ) (source now : String) :
    (generate_signal asset price change rsi source now).signal =
      (if confluencesOf rsi change ≥ 2 then
        some { direction := if rsi < 50 then Direction.call else Direction.put
               entry := price, expiration := 5, note := none
               reasons := reasonsOf rsi change }
       else if confluencesOf rsi change ≥ 1 then
        some { direction := if rsi < 50 then Direction.call else Direction.put
               entry := price, expiration := 5
               note := some "Aguardar confirmação adicional"
               reasons := reasonsOf rsi change }
       else none) := by
  simp only [generate_signal]; split_ifs <;> rfl

theorem confluencesOf_eq_claim (rsi change : ℚ) :
    confluencesOf rsi change = confluence_claim rsi change := by
  unfold confluencesOf confluence_claim
  by_cases h1 : rsi < 30 <;> by_cases h2 : rsi > 70 <;> simp [h1, h2]

/-- **C2.** For every `change24h` input, the pseudo-RSI equals
`clamp(50 - 2*change24h, 0, 100)` and always lies in `[0, 100]`. -/
theorem pseudo_rsi_spec (change : ℚ) :
    pseudo_rsi change = max 0 (min 100 (50 - 2 * change)) ∧
    0 ≤ pseudo_rsi change ∧ pseudo_rsi change ≤ 100 := by
  refine ⟨by unfold pseudo_rsi; ring_nf, le_max_left _ _, ?_⟩
  unfold pseudo_rsi
  exact max_le (by norm_num) (min_le_left _ _)

/-- **C3.** The tier `generate_signal` returns is FORTE exactly when the
confluence total of the claim's accumulation is `≥ 2`, MODERADO exactly
when it is in `[1, 2)`, and FRACO exactly when it is `< 1`. -/
theorem tier_matches_confluence (asset : String) (price change rsi : ℚ)
    (source now : String) :
    ((generate_signal asset price change rsi source now).tier = Tier.forte ↔
      2 ≤ confluence_claim rsi change) ∧
    ((generate_signal asset price change rsi source now).tier = Tier.moderado ↔
      1 ≤ confluence_claim rsi change ∧ confluence_claim rsi change < 2) ∧
    ((generate_signal asset price change rsi source now).tier = Tier.fraco ↔
      confluence_claim rsi change < 1) := by
  rw [generate_signal_tier, confluencesOf_eq_claim]
  split_ifs with h2 h1
  · refine ⟨by simp [h2], ?_, ?_⟩
    · simp only [reduceCtorEq, false_iff, not_and, not_lt]
      intro _; linarith
    · simp only [reduceCtorEq, false_iff, not_lt]
      linarith
  · refine ⟨?_, by simp [h1, lt_of_not_ge h2], ?_⟩
    · simp only [reduceCtorEq, false_iff, not_le]
      exact lt_of_not_ge h2
    · simp only [reduceCtorEq, false_iff, not_lt]
      linarith
  · refine ⟨?_, ?_, by simp [lt_of_not_ge h1]⟩
    · simp only [reduceCtorEq, false_iff, not_le]
      have := lt_of_not_ge h1; linarith
    · simp only [reduceCtorEq, false_iff, not_and, not_lt]
      intro h; exact absurd h (not_le.mpr (lt_of_not_ge h1))

/-- **C4.** FRACO yields no signal; FORTE/MODERADO yield a signal whose
direction is CALL iff `rsi < 50`, whose entry is the input price, whose
expiration is 5, and whose "awaiting confirmation" note is present
exactly on MODERADO. -/
theorem signal_shape_spec (asset : String) (price change rsi : ℚ)
    (source now : String) :
    ((generate_signal asset price change rsi source now).tier = Tier.fraco →
      (generate_signal asset price change rsi source now).signal = none) ∧
    ((generate_signal asset price change rsi source now).tier ≠ Tier.fraco →
      ∃ sig, (generate_signal asset price change rsi source now).signal = some sig ∧
        (sig.direction = Direction.call ↔ rsi < 50) ∧
        sig.entry = price ∧ sig.expiration = 5 ∧
        ((generate_signal asset price change rsi source now).tier = Tier.moderado ↔
          sig.note = some "Aguardar confirmação adicional") ∧
        ((generate_signal asset price change rsi source now).tier = Tier.forte ↔
          sig.note = none)) := by
  rw [generate_signal_tier, generate_signal_signal]
  split_ifs with h2 hd h1 hd <;>
    first
      | exact ⟨fun hh => absurd hh (by simp), fun _ =>
          ⟨_, rfl, by simp [hd], rfl, rfl, by simp, by simp⟩⟩
      | exact ⟨fun _ => rfl, fun hh => absurd rfl hh⟩

/-- **C7 (amended).** `generate_signal` is deterministic in every field
except `timestamp`: two invocations with the same arguments differ at
most in the `timestamp` the clock supplies. -/
theorem generate_signal_deterministic_except_timestamp (asset : String)
    (price change rsi : ℚ) (source now₁ now₂ : String) :
    generate_signal asset price change rsi source now₁ =
      { generate_signal asset price change rsi source now₂ with timestamp := now₁ } := by
  simp only [generate_signal]; split_ifs <;> rfl

/-- **C7 (counterexample).** Two invocations of `generate_signal` with
identical `(asset, price, change, rsi, source)` arguments do not return
identical results: the `timestamp` field reads the clock
(`datetime.now()`), which is hidden state. -/
theorem generate_signal_depends_on_clock :
    ¬ ∀ (asset : String) (price change rsi : ℚ) (source now₁ now₂ : String),
        generate_signal asset price change rsi source now₁ =
          generate_signal asset price change rsi source now₂ := by
  intro h
  have h' := congrArg SignalResult.timestamp (h "BTCUSDT" 1 0 50 "bybit" "t1" "t2")
  rw [generate_signal_timestamp, generate_signal_timestamp] at h'
  exact absurd h' (by decide)

theorem confluencesOf_lt_one (rsi change : ℚ) (hr1 : ¬ rsi < 30) (hr2 : ¬ rsi > 70)
    (hc : abs change ≤ 2) : confluencesOf rsi change < 1 := by
  unfold confluencesOf
  rw [if_neg hr1, if_neg hr2, if_neg (not_lt.mpr hc)]
  split_ifs <;> norm_num

theorem generate_mock_data_eq (variation : ℚ) (symbol asset now : String) :
    generate_mock_data variation symbol asset now =
      AnalyzeResult.ok
        { generate_signal asset ((base_prices.lookup symbol).getD 100 * (1 + variation))
            (variation * 100) (pseudo_rsi (variation * 100)) "mock" now
          with note := some "Dados simulados - API indisponível" } := by
  rfl

theorem lookup_getD_pos (s : String) (d : ℚ) (hd : 0 < d) :
    ∀ (l : List (String × ℚ)), (∀ p ∈ l, 0 < p.2) → 0 < (l.lookup s).getD d := by
  intro l
  induction l with
  | nil => intro _; simpa [List.lookup] using hd
  | cons p t ih =>
    intro hl
    obtain ⟨k, v⟩ := p
    simp only [List.lookup]
    cases hb : (s == k) with
    | true =>
      simpa using hl (k, v) (List.mem_cons_self _ _)
    | false =>
      exact ih (fun q hq => hl q (List.mem_cons_of_mem _ hq))

theorem base_prices_pos (s : String) : 0 < (base_prices.lookup s).getD 100 := by
  refine lookup_getD_pos s 100 (by norm_num) base_prices ?_
  intro p hp
  unfold base_prices at hp
  fin_cases hp <;> norm_num

/-- **C9.** A mock-sourced result never carries a trade signal: for any
perturbation in the `random.uniform(-0.02, 0.02)` range, the mock
`change_24h` lies in `[-2, 2]`, the derived pseudo-RSI lies in
`[46, 54]`, and the generated result has tier FRACO and `signal = None`. -/
theorem mock_data_always_fraco (variation : ℚ) (symbol asset now : String)
    (h₁ : -(1/50) ≤ variation) (h₂ : variation ≤ 1/50) :
    ∃ r, generate_mock_data variation symbol asset now = AnalyzeResult.ok r ∧
      r.change_24h = roundTo (variation * 100) 2 ∧
      -2 ≤ variation * 100 ∧ variation * 100 ≤ 2 ∧
      46 ≤ pseudo_rsi (variation * 100) ∧ pseudo_rsi (variation * 100) ≤ 54 ∧
      r.tier = Tier.fraco ∧ r.signal = none ∧ r.source = "mock" := by
  have hc1 : (-2 : ℚ) ≤ variation * 100 := by linarith
  have hc2 : variation * 100 ≤ 2 := by linarith
  have habs : abs (variation * 100) ≤ 2 := abs_le.mpr ⟨hc1, hc2⟩
  have hrsi : pseudo_rsi (variation * 100) = 50 - variation * 100 * 2 := by
    unfold pseudo_rsi
    rw [min_eq_right (by linarith), max_eq_right (by linarith)]
  have hr1 : 46 ≤ pseudo_rsi (variation * 100) := by rw [hrsi]; linarith
  have hr2 : pseudo_rsi (variation * 100) ≤ 54 := by rw [hrsi]; linarith
  have hconf : confluencesOf (pseudo_rsi (variation * 100)) (variation * 100) < 1 :=
    confluencesOf_lt_one _ _ (by linarith) (by linarith) habs
  rw [generate_mock_data_eq]
  refine ⟨_, rfl, ?_, hc1, hc2, hr1, hr2, ?_, ?_, ?_⟩
  · show (generate_signal _ _ _ _ _ _).change_24h = _
    rw [generate_signal_change]
  · show (generate_signal _ _ _ _ _ _).tier = _
    rw [generate_signal_tier, if_neg (by intro hge; linarith),
      if_neg (by intro hge; linarith)]
  · show (generate_signal _ _ _ _ _ _).signal = _
    rw [generate_signal_signal, if_neg (by intro hge; linarith),
      if_neg (by intro hge; linarith)]
  · show (generate_signal _ _ _ _ _ _).source = _
    rw [generate_signal_source]

/-- **C9 (witness).** The bound is exercised at `variation = 0.015`,
which produces a moderate-move half-confluence and still tier FRACO. -/
theorem mock_data_always_fraco_witness :
    ∃ r, generate_mock_data (3/200) "EURUSD" "EUR/USD" "t0" = AnalyzeResult.ok r ∧
      r.change_24h = roundTo ((3 : ℚ)/200 * 100) 2 ∧
      -2 ≤ (3 : ℚ)/200 * 100 ∧ (3 : ℚ)/200 * 100 ≤ 2 ∧
      46 ≤ pseudo_rsi ((3 : ℚ)/200 * 100) ∧ pseudo_rsi ((3 : ℚ)/200 * 100) ≤ 54 ∧
      r.tier = Tier.fraco ∧ r.signal = none ∧ r.source = "mock" :=
  mock_data_always_fraco (3/200) "EURUSD" "EUR/USD" "t0" (by norm_num) (by norm_num)

/-- **C10.** `price_cache` is empty at startup and no handler ever
writes it: every event sequence leaves it empty, and every single step
preserves it exactly; the `analyze` response is computed from the
environment and the path alone, never from cached quotes. -/
theorem price_cache_never_touched (events : List ServerEvent) :
    ((events.foldl stepState initialState).price_cache = [] ∧
     (∀ (s : ServerState) (e : ServerEvent), (stepState s e).price_cache = s.price_cache) ∧
     (∀ (env : Env) (a : String),
        eventResponse env (ServerEvent.httpAnalyze a) = some (analyze env a))) := by
  refine ⟨?_, fun s e => by cases e <;> rfl, fun env a => rfl⟩
  have h : ∀ (l : List ServerEvent) (s : ServerState),
      (l.foldl stepState s).price_cache = s.price_cache := by
    intro l
    induction l with
    | nil => intro s; rfl
    | cons e t ih =>
      intro s
      rw [List.foldl_cons, ih]
      cases e <;> rfl
  rw [h]
  rfl

/-- **C8.** One `push` round is best-effort: every connection whose send
fails is absent from the subscriber set afterwards, every connection
whose send succeeds stays and receives the snapshot, and nothing is ever
delivered to a connection that is not in the subscriber set. -/
theorem push_prunes_failed_connections (clients : List WsConn) (snapshot : String)
    (c : WsConn) (hc : c ∈ clients) :
    (c.sendOk = false → c ∉ (push clients snapshot).1) ∧
    (c.sendOk = true → c ∈ (push clients snapshot).1 ∧
      (c, snapshot) ∈ (push clients snapshot).2) ∧
    (∀ d : WsConn, d ∉ clients → ∀ m : String, (d, m) ∉ (push clients snapshot).2) := by
  unfold push
  refine ⟨?_, ?_, ?_⟩
  · intro hfail hmem
    simp only [List.mem_filter, List.elem_eq_mem, Bool.not_eq_true',
      decide_eq_false_iff_not] at hmem
    exact hmem.2 ⟨hc, by simp [hfail]⟩
  · intro hok
    constructor
    · simp only [List.mem_filter, List.elem_eq_mem, Bool.not_eq_true',
        decide_eq_false_iff_not]
      exact ⟨hc, fun hm => by simp [hok] at hm⟩
    · simp only [List.mem_map]
      exact ⟨c, List.mem_filter.mpr ⟨hc, hok⟩, rfl⟩
  · intro d hd m hmem
    simp only [List.mem_map] at hmem
    obtain ⟨x, hx, hxd⟩ := hmem
    exact hd (by cases hxd; exact (List.mem_filter.mp hx).1)

/-- **C8 (witness).** A two-subscriber round where the second
connection's send fails: it is pruned, the first still receives. -/
theorem push_prunes_failed_connections_witness :
    ((WsConn.mk 2 false).sendOk = false →
      WsConn.mk 2 false ∉ (push [WsConn.mk 1 true, WsConn.mk 2 false] "snap").1) ∧
    ((WsConn.mk 2 false).sendOk = true →
      WsConn.mk 2 false ∈ (push [WsConn.mk 1 true, WsConn.mk 2 false] "snap").1 ∧
      (WsConn.mk 2 false, "snap") ∈ (push [WsConn.mk 1 true, WsConn.mk 2 false] "snap").2) ∧
    (∀ d : WsConn, d ∉ [WsConn.mk 1 true, WsConn.mk 2 false] →
      ∀ m : String, (d, m) ∉ (push [WsConn.mk 1 true, WsConn.mk 2 false] "snap").2) :=
  push_prunes_failed_connections [WsConn.mk 1 true, WsConn.mk 2 false] "snap"
    (WsConn.mk 2 false) (by decide)

/-- **C5.** The crypto fetcher queries spot first: when spot has data it
returns the spot quote having issued no linear request, and when spot
decodes without data it issues the linear request second and returns
the linear quote; the category trace records the request order. -/
theorem bybit_spot_before_linear
    (api : BybitCategory → String → Except String BybitResponse)
    (symbol asset now : String) :
    (∀ spotR : BybitResponse,
      api BybitCategory.spot ((BYBIT_PAIRS.lookup symbol).getD symbol) = Except.ok spotR →
      ∀ h : bybitHasData spotR,
        fetch_bybit_data api symbol asset now =
          Except.ok (AnalyzeResult.ok
            (process_ticker_data (spotR.list.head h.2) asset "bybit" now),
            [BybitCategory.spot])) ∧
    (∀ spotR linearR : BybitResponse,
      api BybitCategory.spot ((BYBIT_PAIRS.lookup symbol).getD symbol) = Except.ok spotR →
      ¬ bybitHasData spotR →
      api BybitCategory.linear ((BYBIT_PAIRS.lookup symbol).getD symbol) = Except.ok linearR →
      ∀ h : bybitHasData linearR,
        fetch_bybit_data api symbol asset now =
          Except.ok (AnalyzeResult.ok
            (process_ticker_data (linearR.list.head h.2) asset "bybit" now),
            [BybitCategory.spot, BybitCategory.linear])) := by
  constructor
  · intro spotR hspot h
    simp only [fetch_bybit_data, hspot]
    simp only [bind, Except.bind, if_pos h, pure, Except.pure]
    rw [dif_pos h]
  · intro spotR linearR hspot hnd hlin h
    simp only [fetch_bybit_data, hspot]
    simp only [bind, Except.bind, if_neg hnd, hlin, pure, Except.pure]
    rw [dif_pos h]

theorem fetch_bybit_all_fail (api : BybitCategory → String → Except String BybitResponse)
    (h : ∀ cat s d, api cat s = Except.ok d → ¬ bybitHasData d)
    (symbol asset now : String) :
    (∃ e, fetch_bybit_data api symbol asset now = Except.error e) ∨
    (∃ fields tr, fetch_bybit_data api symbol asset now =
        Except.ok (AnalyzeResult.err fields, tr)) := by
  cases hspot : api BybitCategory.spot ((BYBIT_PAIRS.lookup symbol).getD symbol) with
  | error e =>
    left
    exact ⟨e, by simp only [fetch_bybit_data, hspot, bind, Except.bind]⟩
  | ok d0 =>
    have hnd0 := h _ _ _ hspot
    cases hlin : api BybitCategory.linear ((BYBIT_PAIRS.lookup symbol).getD symbol) with
    | error e =>
      left
      refine ⟨e, ?_⟩
      simp only [fetch_bybit_data, hspot]
      simp only [bind, Except.bind, if_neg hnd0, hlin]
    | ok d1 =>
      have hnd1 := h _ _ _ hlin
      right
      refine ⟨[("asset", JVal.str asset), ("status", JVal.str "error"),
        ("message", JVal.str ("Par " ++ ((BYBIT_PAIRS.lookup symbol).getD symbol)
          ++ " não encontrado na ByBit")),
        ("api_response", JVal.resp d1)],
        [BybitCategory.spot, BybitCategory.linear], ?_⟩
      simp only [fetch_bybit_data, hspot]
      simp only [bind, Except.bind, if_neg hnd0, hlin, pure, Except.pure]
      rw [dif_neg hnd1]

theorem generate_mock_data_ok (variation : ℚ) (symbol asset now : String)
    (h₁ : -(1/50) ≤ variation) :
    ∃ r, generate_mock_data variation symbol asset now = AnalyzeResult.ok r ∧
      r.source = "mock" ∧ 0 < r.price := by
  rw [generate_mock_data_eq]
  refine ⟨_, rfl, ?_, ?_⟩
  · show (generate_signal _ _ _ _ _ _).source = _
    rw [generate_signal_source]
  · show 0 < (generate_signal _ _ _ _ _ _).price
    rw [generate_signal_price]
    exact mul_pos (base_prices_pos symbol) (by linarith)

/-- **C1 (amended).** When every upstream request fails, resolution for
the registered forex/commodity instruments still returns a quote with
price > 0 tagged "mock"; for the registered crypto instruments,
however, `fetch_bybit_data` produces a structured error payload, not a
mock quote. -/
theorem quote_resolution_amended (env : Env)
    (hv₁ : -(1/50) ≤ env.mockVariation) (hv₂ : env.mockVariation ≤ 1/50)
    (hyahoo : ∀ s, env.yahoo s = YahooOutcome.failure)
    (hbybit : ∀ cat s d, env.bybit cat s = Except.ok d → ¬ bybitHasData d) :
    (∀ name ∈ (FOREX_PAIRS ++ COMMODITY_PAIRS).map Prod.fst,
      ∃ r, analyze env name = AnalyzeResult.ok r ∧ r.source = "mock" ∧ 0 < r.price) ∧
    (∀ name ∈ BYBIT_PAIRS.map Prod.fst,
      ∃ fields, analyze env name = AnalyzeResult.err fields) := by
  constructor
  · intro name hmem
    fin_cases hmem <;>
    · simp only [analyze]
      rw [if_neg (by decide), if_neg (by decide)]
      simp only [fetch_forex_data]
      rw [hyahoo]
      exact generate_mock_data_ok _ _ _ _ hv₁
  · intro name hmem
    fin_cases hmem <;>
    · simp only [analyze]
      rw [if_neg (by decide), if_pos (by decide)]
      rcases fetch_bybit_all_fail env.bybit hbybit _ _ env.now with ⟨e, he⟩ | ⟨fields, tr, hf⟩
      · rw [he]
        exact ⟨_, rfl⟩
      · rw [hf]
        exact ⟨fields, rfl⟩

/-- **C1 (witness).** The amended statement at the concrete environment
in which every ByBit request decodes to `retCode = 1` with no tickers
and every Yahoo request fails. -/
theorem quote_resolution_amended_witness :
    (∀ name ∈ (FOREX_PAIRS ++ COMMODITY_PAIRS).map Prod.fst,
      ∃ r, analyze failEnv name = AnalyzeResult.ok r ∧ r.source = "mock" ∧ 0 < r.price) ∧
    (∀ name ∈ BYBIT_PAIRS.map Prod.fst,
      ∃ fields, analyze failEnv name = AnalyzeResult.err fields) :=
  quote_resolution_amended failEnv (by norm_num [failEnv]) (by norm_num [failEnv]) (fun _ => rfl)
    (fun cat s d h => by injection h with h2; rw [← h2]; decide)

/-- **C1 (counterexample).** With every provider failing, the crypto
instrument "BTC/USDT" is not resolved to a mock quote: `analyze`
returns an error payload. -/
theorem crypto_resolution_fails :
    ¬ ∃ r, analyze failEnv "BTC/USDT" = AnalyzeResult.ok r ∧
        r.source = "mock" ∧ 0 < r.price := by
  rintro ⟨r, hr, -, -⟩
  have hok : (analyze failEnv "BTC/USDT").isOkB = true := by rw [hr]; rfl
  exact absurd hok (by decide)

set_option maxRecDepth 10000 in
/-- **C6 (amended).** For every asset that does not normalize to a
registered pair, `analyze` returns a structured error with the original
asset string, status "error", and a message containing "não suportado"
followed by the full (non-empty) list of known pair names; the list is
embedded in the message text, and the payload carries no separate
`available` key. -/
theorem unknown_asset_error (env : Env) (asset : String)
    (h : normalize_asset asset ∉ all_pairs.map Prod.fst) :
    ∃ msg : String,
      analyze env asset = AnalyzeResult.err
        [("asset", JVal.str asset), ("status", JVal.str "error"),
         ("message", JVal.str msg)] ∧
      msg = "Par " ++ asset ++ " não suportado. Use: "
          ++ pyStrListRepr (all_pairs.map Prod.fst) ∧
      (∃ pre post : List Char, msg.data = pre ++ ("não suportado").data ++ post) ∧
      all_pairs.map Prod.fst ≠ [] ∧
      List.lookup "available"
        [("asset", JVal.str asset), ("status", JVal.str "error"),
         ("message", JVal.str msg)] = none := by
  refine ⟨_, ?_, rfl, ?_, by decide, by rfl⟩
  · simp only [analyze]
    rw [if_pos h]
  · refine ⟨("Par " ++ asset ++ " ").data,
      (". Use: " ++ pyStrListRepr (all_pairs.map Prod.fst)).data, ?_⟩
    simp only [String.data_append, List.append_assoc]
    exact congrArg (fun l => ("Par ").data ++ (asset.data ++ l)) (by decide)

/-- **C6 (witness).** The amended statement at the unknown instrument
"XYZ/ABC". -/
theorem unknown_asset_error_witness :
    ∃ msg : String,
      analyze failEnv "XYZ/ABC" = AnalyzeResult.err
        [("asset", JVal.str "XYZ/ABC"), ("status", JVal.str "error"),
         ("message", JVal.str msg)] ∧
      msg = "Par " ++ "XYZ/ABC" ++ " não suportado. Use: "
          ++ pyStrListRepr (all_pairs.map Prod.fst) ∧
      (∃ pre post : List Char, msg.data = pre ++ ("não suportado").data ++ post) ∧
      all_pairs.map Prod.fst ≠ [] ∧
      List.lookup "available"
        [("asset", JVal.str "XYZ/ABC"), ("status", JVal.str "error"),
         ("message", JVal.str msg)] = none :=
  unknown_asset_error failEnv "XYZ/ABC" (by decide)

/-- **C6 (counterexample).** At the unknown instrument "XYZ/ABC" the
error payload has no `available` key at all: the known-pairs list lives
only inside the message string. -/
theorem unknown_asset_no_available_field :
    ¬ ∃ (fields : List (String × JVal)) (avail : List String),
        analyze failEnv "XYZ/ABC" = AnalyzeResult.err fields ∧
        List.lookup "available" fields = some (JVal.strList avail) ∧ avail ≠ [] := by
  rintro ⟨fields, avail, hf, hl, -⟩
  have h2 : Option.bind (analyze failEnv "XYZ/ABC").errFields
      (fun f => List.lookup "available" f) = none := by decide
  rw [hf] at h2
  simp only [AnalyzeResult.errFields, Option.bind] at h2
  rw [hl] at h2
  exact Option.noConfusion h2

-- Spec §8 end-to-end vectors, as sanity checks of the embedding.
example : (generate_signal "BTC/USDT" 50000 3 44 "bybit" "t").tier = Tier.moderado := by
  norm_num [generate_signal, confluencesOf]
example :
    (generate_signal "BTC/USDT" 50000 3 44 "bybit" "t").signal.map TradeSignal.direction
      = some Direction.call := by norm_num [generate_signal, confluencesOf]
example : (generate_signal "X" 1 0 50 "s" "t").tier = Tier.fraco := by
  norm_num [generate_signal, confluencesOf]
example : (generate_signal "X" 1 0 50 "s" "t").signal = none := by
  norm_num [generate_signal, confluencesOf]
example : normalize_asset "btc/usdt" = "BTCUSDT" := by decide
example : normalize_asset "EUR%2FUSD" = "EURUSD" := by decide
